import Mathlib

/-
  Verification development for the ESP32-P4 basic firmware repository.

  A shallow embedding of the command interpreter (src/main/src/command_interpreter.cpp)
  and its three collaborators (wifi_manager.cpp, ble_manager.cpp, relay_manager.cpp).

  Modelling conventions:
  * std::string is Lean String (a list of chars); std::vector is List.
  * C `int` arithmetic in the hand-written digit parsers is modelled with
    explicit two's-complement reduction mod 2^32 (`wrap32`), since the
    accumulation loop can overflow a 32-bit int on the target.
  * Calls into the radio / GPIO hardware are recorded in an `Effect` trace;
    their success is driven by oracle fields stored in the collaborator state
    (the radio's answer is an external input of the program).
  * Fallible operations return a Bool paired with the updated state and the
    trace of hardware-level effects, mirroring the no-exceptions error style
    of the source.
-/

namespace Esp32

/-! ### Character utilities

`std::istringstream >> token` splits on the C locale whitespace set
(space, \t, \n, \v, \f, \r), the same set used by the trimming code in
`process_command_with_response` (" \t\n\r\f\v"). -/

def isSpaceChar (c : Char) : Bool :=
  c = ' ' || c = '\t' || c = '\n' || c = '\x0b' || c = '\x0c' || c = '\r'

/-- `std::isdigit` on the ASCII range. -/
def isDigitChar (c : Char) : Bool :=
  '0' ≤ c && c ≤ '9'

/-- `::tolower` as applied charwise by `std::transform` in the dispatcher
(ASCII letters only; other bytes are returned unchanged). -/
def toLowerChar (c : Char) : Char :=
  if 'A' ≤ c && c ≤ 'Z' then Char.ofNat (c.toNat + 32) else c

def lowerStr (s : String) : String :=
  ⟨s.data.map toLowerChar⟩

/-! ### Tokenizer

`CommandInterpreter::parse_command`: repeated `iss >> token` extraction,
i.e. splitting the input on runs of whitespace. -/

def tokenizeAux : List Char → List Char → List (List Char)
  | [], acc => if acc.isEmpty then [] else [acc.reverse]
  | c :: cs, acc =>
    if isSpaceChar c then
      if acc.isEmpty then tokenizeAux cs []
      else acc.reverse :: tokenizeAux cs []
    else tokenizeAux cs (c :: acc)

def parse_command (command : String) : List String :=
  (tokenizeAux command.data []).map String.mk

/-- The clean-up step of `process_command_with_response` (lines 198-200):
erase trailing whitespace (`find_last_not_of(" \t\n\r\f\v")`), then erase
leading whitespace. -/
def dropTrailingSpace (l : List Char) : List Char :=
  (l.reverse.dropWhile isSpaceChar).reverse

def cleanCommand (s : String) : String :=
  ⟨(dropTrailingSpace s.data).dropWhile isSpaceChar⟩

/-! ### 32-bit int digit accumulation

Both `generate_connect_response` and the two ble_scan handlers parse a
digit string with `v = v * 10 + (c - '0')` on a C `int` (32-bit on the
ESP32-P4); the accumulator wraps mod 2^32 on overflow. -/

/-- Reduce an integer to the signed 32-bit value with the same low 32 bits. -/
def wrap32 (x : Int) : Int :=
  (x + 2 ^ 31) % 2 ^ 32 - 2 ^ 31

def accumDigits : List Char → Int → Int
  | [], acc => acc
  | c :: cs, acc => accumDigits cs (wrap32 (acc * 10 + ((c.toNat : Int) - 48)))

/-- The value the manual parsing loops leave in the `int` accumulator
(starting from 0) for a digit string. -/
def parseInt32 (s : String) : Int :=
  accumDigits s.data 0

/-! ### Hardware-level effects

One trace entry per call into a collaborator's radio / GPIO layer. -/

inductive Effect where
  | wifiScanStart : Effect
  | wifiConnect (ssid password : String) : Effect
  | wifiDisconnect : Effect
  | bleAdvStart (name : String) : Effect
  | bleAdvStop : Effect
  | bleScanStart (durationSec : Int) : Effect
  | gpioSet (pin level : Nat) : Effect
  | notifySend (data : String) : Effect
deriving DecidableEq, Repr

end Esp32

namespace Esp32.wifi_config

/-- `wifi_auth_mode_t` values distinguished by `auth_mode_to_string`. -/
inductive AuthMode where
  | open_ | wep | wpa | wpa2 | wpaWpa2 | wpa3 | unknown
deriving DecidableEq, Repr

/-- `wifi_config::NetworkInfo` (wifi_manager.hpp). `rssi` is an `int8_t`,
modelled as Int (only printed, never computed with). -/
structure NetworkInfo where
  ssid : String
  rssi : Int
  auth_mode : AuthMode
deriving DecidableEq, Repr

def defaultNetwork : NetworkInfo := ⟨"", 0, AuthMode.open_⟩

/-- State of `wifi_config::WiFiManager`.  The `Ok`/`outcome` fields are
oracles for the results of the underlying radio operations (scan events,
association result, netif lookup), which are external inputs. -/
structure WiFiState where
  initialized : Bool
  connected : Bool
  connected_ssid : String
  retry_count : Nat
  scanned_networks : List NetworkInfo
  /-- What the radio would deliver for a scan: `none` = start failure or
  timeout, `some l` = the event handler fills `scanned_networks_` with `l`
  (already sorted by descending RSSI by the handler). -/
  scan_outcome : Option (List NetworkInfo)
  /-- Whether an association attempt succeeds (CONNECTED bit vs FAIL/timeout). -/
  connect_ok : Bool
  /-- Whether `esp_wifi_disconnect` returns ESP_OK. -/
  disconnect_ok : Bool
  /-- Address reported by the netif while connected. -/
  ip : String
  /-- RSSI reported by `esp_wifi_sta_get_ap_info` while connected. -/
  rssi : Int
deriving DecidableEq, Repr

open Esp32 in
/-- `WiFiManager::scan_networks` (wifi_manager.cpp lines 164-195). -/
def WiFiState.scan_networks (s : WiFiState) : Bool × WiFiState × List Effect :=
  if !s.initialized then (false, s, [])
  else
    let s1 := { s with scanned_networks := [] }
    match s.scan_outcome with
    | none => (false, s1, [Effect.wifiScanStart])
    | some l => (true, { s1 with scanned_networks := l }, [Effect.wifiScanStart])

open Esp32 in
/-- `WiFiManager::connect_to_network` (lines 197-251).  On failure the
connection flag is down; the (asynchronous) disconnect event may in
addition clear `connected_ssid_`, which no command observes before the
next connect, so it is left as the function itself wrote it. -/
def WiFiState.connect_to_network (s : WiFiState) (ssid password : String) :
    Bool × WiFiState × List Effect :=
  if !s.initialized then (false, s, [])
  else if ssid = "" then (false, s, [])
  else
    let s1 := { s with retry_count := 0, connected_ssid := ssid }
    if s.connect_ok then
      (true, { s1 with connected := true }, [Effect.wifiConnect ssid password])
    else
      (false, { s1 with connected := false }, [Effect.wifiConnect ssid password])

open Esp32 in
/-- `WiFiManager::disconnect` (lines 253-269). -/
def WiFiState.disconnect (s : WiFiState) : Bool × WiFiState × List Effect :=
  if !s.initialized then (false, s, [])
  else if s.disconnect_ok then
    (true, { s with connected := false, connected_ssid := "" }, [Effect.wifiDisconnect])
  else (false, s, [Effect.wifiDisconnect])

def WiFiState.is_connected (s : WiFiState) : Bool := s.connected

def WiFiState.get_connected_ssid (s : WiFiState) : String := s.connected_ssid

/-- `WiFiManager::get_ip_address` (lines 283-297). -/
def WiFiState.get_ip_address (s : WiFiState) : String :=
  if !s.connected then "" else s.ip

/-- `WiFiManager::get_rssi` (lines 299-310). -/
def WiFiState.get_rssi (s : WiFiState) : Int :=
  if !s.connected then 0 else s.rssi

end Esp32.wifi_config

namespace Esp32.ble_serial

/-- `ble_serial::ScanResult` fields as read by `get_scan_result`. -/
structure ScanResult where
  address : String
  name : String
  rssi : Int
  service_uuids : String
deriving DecidableEq, Repr

/-- State of `ble_serial::BLEManager`.  `adv_ok`, `adv_stop_ok` and
`scan_outcome` are oracles for the NimBLE stack's answers. -/
structure BLEState where
  initialized : Bool
  advertising : Bool
  connected : Bool
  scanning : Bool
  /-- `conn_handle_`; 0xffff is BLE_HS_CONN_HANDLE_NONE. -/
  conn_handle : Nat
  device_name : String
  nus_tx_char_handle : Nat
  scan_results : List ScanResult
  /-- Whether `ble_gap_adv_set_fields` + `ble_gap_adv_start` succeed. -/
  adv_ok : Bool
  /-- Whether `ble_gap_adv_stop` succeeds. -/
  adv_stop_ok : Bool
  /-- `none` = `ble_gap_disc` fails; `some l` = discovery events have
  appended `l` by the time the results are read. -/
  scan_outcome : Option (List ScanResult)
deriving DecidableEq, Repr

/-- `BLEManager::is_connected` (ble_manager.cpp lines 245-247). -/
def BLEState.is_connected (b : BLEState) : Bool :=
  b.connected && b.conn_handle ≠ 0xffff

open Esp32 in
/-- `BLEManager::start_advertising_internal` (lines 540-575): errors from
the stack are logged and swallowed; on success `advertising_` is set. -/
def BLEState.start_advertising_internal (b : BLEState) : BLEState × List Effect :=
  if !b.initialized then (b, [])
  else if b.adv_ok then
    ({ b with advertising := true }, [Effect.bleAdvStart b.device_name])
  else (b, [Effect.bleAdvStart b.device_name])

open Esp32 in
/-- `BLEManager::start_advertising` (lines 203-226); the interpreter always
calls it with the defaulted name "ESP32-P4-WiFi". -/
def BLEState.start_advertising (b : BLEState) (device_name : String) :
    Bool × BLEState × List Effect :=
  if !b.initialized then (false, b, [])
  else if b.advertising then (true, b, [])
  else
    let b1 := if device_name ≠ "" && device_name ≠ b.device_name
              then { b with device_name := device_name } else b
    let (b2, e) := b1.start_advertising_internal
    (true, b2, e)

open Esp32 in
/-- `BLEManager::stop_advertising` (lines 228-243). -/
def BLEState.stop_advertising (b : BLEState) : Bool × BLEState × List Effect :=
  if !b.advertising then (false, b, [])
  else if b.adv_stop_ok then
    (true, { b with advertising := false }, [Effect.bleAdvStop])
  else (false, b, [Effect.bleAdvStop])

open Esp32 in
/-- `BLEManager::start_scan` (lines 287-320).  The head trace entry records
the duration argument the caller passed in. -/
def BLEState.start_scan (b : BLEState) (scan_duration_seconds : Int) :
    Bool × BLEState × List Effect :=
  if !b.initialized then (false, b, [Effect.bleScanStart scan_duration_seconds])
  else if b.scanning then (false, b, [Effect.bleScanStart scan_duration_seconds])
  else
    let b1 := { b with scan_results := [] }
    match b.scan_outcome with
    | none => (false, b1, [Effect.bleScanStart scan_duration_seconds])
    | some l =>
      (true, { b1 with scanning := true, scan_results := l },
       [Effect.bleScanStart scan_duration_seconds])

def BLEState.get_scan_result_count (b : BLEState) : Int :=
  b.scan_results.length

/-- The entry text `get_scan_result` builds for an in-range index
(ble_manager.cpp lines 352-367). -/
def formatScanResult (index : Int) (r : ScanResult) : String :=
  "[" ++ toString index ++ "] " ++ r.address ++
  (if r.name ≠ "" then " (" ++ r.name ++ ")" else " (Unknown)") ++
  " RSSI: " ++ toString r.rssi ++ " dBm" ++
  (if r.service_uuids ≠ "" then " Services: " ++ r.service_uuids else "")

/-- `BLEManager::get_scan_result` (lines 347-368). -/
def get_scan_result (results : List ScanResult) (index : Int) : String :=
  if index < 0 || (results.length : Int) ≤ index then ""
  else formatScanResult index (results.getD index.toNat ⟨"", "", 0, ""⟩)

/-- `BLEManager::get_debug_status` (lines 370-393). -/
def BLEState.get_debug_status (b : BLEState) : String :=
  "=== BLE Debug Status ===\n" ++
  "Implementation: ESP-Hosted NimBLE via ESP32-C6\n" ++
  "Transport: VHCI over SDIO\n" ++
  "Initialized: " ++ (if b.initialized then "Yes" else "No") ++ "\n" ++
  "Advertising: " ++ (if b.advertising then "Active" else "Stopped") ++ "\n" ++
  "Connected: " ++ (if b.connected then "Yes" else "No") ++ "\n" ++
  "Scanning: " ++ (if b.scanning then "Active" else "Stopped") ++ "\n" ++
  "Connection Handle: " ++ toString b.conn_handle ++ "\n" ++
  "Device Name: " ++ b.device_name ++ "\n" ++
  "Scan Results: " ++ toString b.scan_results.length ++ " devices\n" ++
  "\nNordic UART Service:\n" ++
  "- Service UUID: 6E400001-B5A3-F393-E0A9-E50E24DCCA9E\n" ++
  "- RX Char UUID: 6E400002-B5A3-F393-E0A9-E50E24DCCA9E (Write)\n" ++
  "- TX Char UUID: 6E400003-B5A3-F393-E0A9-E50E24DCCA9E (Notify)\n" ++
  "- TX Handle: " ++ toString b.nus_tx_char_handle ++ "\n" ++
  "\nESP-Hosted Configuration:\n" ++
  "- NimBLE Stack: Active\n" ++
  "- ESP32-C6 Controller: Connected via SDIO\n" ++
  "- VHCI Transport: Enabled\n" ++
  "- Service Registration: Complete\n"

end Esp32.ble_serial

namespace Esp32.relay_control

/-- `relay_control::RelayManager::RelayId`. -/
inductive RelayId where
  | RELAY_1 | RELAY_2 | ALL_RELAYS
deriving DecidableEq, Repr

/-- `relay_control::RelayManager::RelayState`. -/
inductive RelayState where
  | OFF | ON
deriving DecidableEq, Repr

/-- State of `relay_control::RelayManager`.  The switch counters are
`uint32_t` in the source; they are modelled as Nat (they grow by at most 1
per hardware switch, and no claim depends on the 2^32 wrap).  The two
`gpio*_level` fields mirror the output latches read back by
`get_gpio_state`. -/
structure RelayManager where
  initialized : Bool
  relay_1_state : RelayState
  relay_2_state : RelayState
  relay_1_switch_count : Nat
  relay_2_switch_count : Nat
  total_operations : Nat
  gpio32_level : Nat
  gpio46_level : Nat
deriving DecidableEq, Repr

/-- `RelayManager::relay_id_to_gpio` (relay_manager.cpp lines 98-107);
RELAY_1_GPIO = 32, RELAY_2_GPIO = 46, invalid = none (GPIO_NUM_NC). -/
def relay_id_to_gpio : RelayId → Option Nat
  | RelayId.RELAY_1 => some 32
  | RelayId.RELAY_2 => some 46
  | RelayId.ALL_RELAYS => none

open Esp32 in
/-- `RelayManager::set_gpio_state` (lines 83-92): a configured output pin
accepts the write (`gpio_set_level` returns ESP_OK for valid outputs), so
the call is modelled as updating the latch and logging the effect. -/
def RelayManager.set_gpio_state (m : RelayManager) (pin level : Nat) :
    RelayManager × List Effect :=
  if pin = 32 then ({ m with gpio32_level := level }, [Effect.gpioSet pin level])
  else ({ m with gpio46_level := level }, [Effect.gpioSet pin level])

def RelayId.depth : RelayId → Nat
  | RelayId.ALL_RELAYS => 1
  | _ => 0

open Esp32 in
/-- `RelayManager::set_relay_state` (lines 122-170).  The ALL_RELAYS
branch re-enters the function for each physical relay (so it re-checks
initialization and bumps `total_operations_` again), exactly as in the
source's recursion. -/
def set_relay_state (m : RelayManager) (relay_id : RelayId) (state : RelayState) :
    Bool × RelayManager × List Effect :=
  if !m.initialized then (false, m, [])
  else
    let m0 := { m with total_operations := m.total_operations + 1 }
    match relay_id with
    | RelayId.ALL_RELAYS =>
      let (ok1, m1, e1) := set_relay_state m0 RelayId.RELAY_1 state
      let (ok2, m2, e2) := set_relay_state m1 RelayId.RELAY_2 state
      (ok1 && ok2, m2, e1 ++ e2)
    | RelayId.RELAY_1 =>
      let (m1, e) := m0.set_gpio_state 32 (if state = RelayState.ON then 1 else 0)
      let m2 := { m1 with
        relay_1_switch_count :=
          if m1.relay_1_state ≠ state then m1.relay_1_switch_count + 1
          else m1.relay_1_switch_count,
        relay_1_state := state }
      (true, m2, e)
    | RelayId.RELAY_2 =>
      let (m1, e) := m0.set_gpio_state 46 (if state = RelayState.ON then 1 else 0)
      let m2 := { m1 with
        relay_2_switch_count :=
          if m1.relay_2_state ≠ state then m1.relay_2_switch_count + 1
          else m1.relay_2_switch_count,
        relay_2_state := state }
      (true, m2, e)
termination_by relay_id.depth
decreasing_by
  · simp [RelayId.depth]
  · simp [RelayId.depth]

/-- `RelayManager::get_relay_state` (lines 172-185). -/
def get_relay_state (m : RelayManager) (relay_id : RelayId) : RelayState :=
  if !m.initialized then RelayState.OFF
  else
    match relay_id with
    | RelayId.RELAY_1 => m.relay_1_state
    | RelayId.RELAY_2 => m.relay_2_state
    | RelayId.ALL_RELAYS => RelayState.OFF

open Esp32 in
def turn_on (m : RelayManager) (relay_id : RelayId) : Bool × RelayManager × List Effect :=
  set_relay_state m relay_id RelayState.ON

open Esp32 in
def turn_off (m : RelayManager) (relay_id : RelayId) : Bool × RelayManager × List Effect :=
  set_relay_state m relay_id RelayState.OFF

open Esp32 in
/-- `RelayManager::toggle` (lines 195-213); for ALL_RELAYS each relay is
toggled independently, exactly as the source recursion does. -/
def toggle (m : RelayManager) (relay_id : RelayId) : Bool × RelayManager × List Effect :=
  if !m.initialized then (false, m, [])
  else
    match relay_id with
    | RelayId.ALL_RELAYS =>
      let (ok1, m1, e1) := toggle m RelayId.RELAY_1
      let (ok2, m2, e2) := toggle m1 RelayId.RELAY_2
      (ok1 && ok2, m2, e1 ++ e2)
    | r =>
      let cur := get_relay_state m r
      let nxt := if cur = RelayState.ON then RelayState.OFF else RelayState.ON
      set_relay_state m r nxt
termination_by relay_id.depth
decreasing_by
  · simp [RelayId.depth]
  · simp [RelayId.depth]

/-- `RelayManager::get_status` (lines 219-230). -/
def RelayManager.get_status (m : RelayManager) : String :=
  if !m.initialized then "Relay Manager: Not initialized"
  else
    "=== Relay Status ===\n" ++
    "Board Variant: Dual Relay Board\n" ++
    "Relay 1 (GPIO32): " ++ (if m.relay_1_state = RelayState.ON then "ON" else "OFF") ++ "\n" ++
    "Relay 2 (GPIO46): " ++ (if m.relay_2_state = RelayState.ON then "ON" else "OFF") ++ "\n"

/-- `RelayManager::get_debug_status` (lines 232-262). -/
def RelayManager.get_debug_status (m : RelayManager) : String :=
  "=== Relay Debug Status ===\n" ++
  "Board Variant: ESP32-P4 Dual Relay Board\n" ++
  "Initialized: " ++ (if m.initialized then "Yes" else "No") ++ "\n" ++
  (if m.initialized then
    "\nRelay Configuration:\n" ++
    "- Relay 1: GPIO32 = " ++ (if m.relay_1_state = RelayState.ON then "ON" else "OFF") ++ "\n" ++
    "- Relay 2: GPIO46 = " ++ (if m.relay_2_state = RelayState.ON then "ON" else "OFF") ++ "\n" ++
    "\nGPIO Pin States:\n" ++
    "- GPIO32 Level: " ++ toString m.gpio32_level ++ "\n" ++
    "- GPIO46 Level: " ++ toString m.gpio46_level ++ "\n" ++
    "\nOperation Statistics:\n" ++
    "- Relay 1 Switches: " ++ toString m.relay_1_switch_count ++ "\n" ++
    "- Relay 2 Switches: " ++ toString m.relay_2_switch_count ++ "\n" ++
    "- Total Operations: " ++ toString m.total_operations ++ "\n" ++
    "\nSafety Features:\n" ++
    "- Auto-off on destruction: Enabled\n" ++
    "- Initialization to OFF: Enabled\n" ++
    "- Error logging: Enabled\n"
  else "")

end Esp32.relay_control

namespace Esp32.command_interface

open Esp32 Esp32.wifi_config Esp32.ble_serial Esp32.relay_control

/-- The interpreter's copy of `auth_mode_to_string`
(command_interpreter.cpp lines 508-518). -/
def auth_mode_to_string : AuthMode → String
  | AuthMode.open_ => "Open"
  | AuthMode.wep => "WEP"
  | AuthMode.wpa => "WPA"
  | AuthMode.wpa2 => "WPA2"
  | AuthMode.wpaWpa2 => "WPA/WPA2"
  | AuthMode.wpa3 => "WPA3"
  | AuthMode.unknown => "Unknown"

/-- The collaborators the interpreter holds: WiFi always attached, BLE and
relay optional (`ble_manager_` / `relay_manager_` may be null). -/
structure Sys where
  wifi : WiFiState
  ble : Option BLEState
  relay : Option RelayManager
deriving DecidableEq, Repr

/-- Result of one response-track dispatch: the returned string, the
collaborator state afterwards, and the hardware effects performed. -/
structure RespOut where
  response : String
  sys : Sys
  effects : List Effect
deriving DecidableEq, Repr

/-- Result of one console-track dispatch: the payloads of the `printf`
calls in order, the collaborator state afterwards, and the hardware
effects performed. -/
structure ConsOut where
  prints : List String
  sys : Sys
  effects : List Effect
deriving DecidableEq, Repr

/-- printf's %-Ns (left justify, pad to N with spaces). -/
def padRight (s : String) (w : Nat) : String :=
  s ++ ⟨List.replicate (w - s.data.length) ' '⟩

/-- printf's %Ns (right justify, pad to N with spaces). -/
def padLeft (s : String) (w : Nat) : String :=
  (⟨List.replicate (w - s.data.length) ' '⟩ : String) ++ s

/-! ### Response-track handlers (`generate_*_response`)

Each source handler receives the whole token vector and reads only
`args.size()` and `args[1]`, `args[2]`; the embedding passes the tokens
after the command keyword, so source `args.size() < k` is `args.length <
k-1` and source `args[i]` is `args.getD (i-1)`. -/

/-- `generate_help_response` (lines 521-539). -/
def generate_help_response (sys : Sys) : RespOut :=
  ⟨"\n=== Available Commands ===\n" ++
   "\n--- WiFi Commands ---\n" ++
   "help, h                    - Show this help message\n" ++
   "scan, s                    - Scan for available WiFi networks\n" ++
   "list, l                    - List previously scanned networks\n" ++
   "connect, c <index>         - Connect to network by index\n" ++
   "status, st                 - Show WiFi connection status\n" ++
   "disconnect, d              - Disconnect from current network\n" ++
   "\n--- BLE Commands ---\n" ++
   "ble_start, bs              - Start BLE advertising\n" ++
   "ble_stop, bp               - Stop BLE advertising\n" ++
   "ble_status, bt             - Show BLE status\n" ++
   "ble_name, bn <name>        - Set BLE device name\n" ++
   "ble_scan, bsc [duration]   - Scan for BLE devices\n" ++
   "ble_debug, bd              - Show BLE debug info\n\n" ++
   "Commands available via USB Serial JTAG and BLE\n", sys, []⟩

/-- `format_network_list` (lines 651-662), indices starting at 0. -/
def format_network_list_from (i : Nat) : List NetworkInfo → String
  | [] => ""
  | n :: rest =>
    "  [" ++ toString i ++ "] " ++ n.ssid ++
    " (" ++ auth_mode_to_string n.auth_mode ++
    ", RSSI: " ++ toString n.rssi ++ " dBm)\n" ++
    format_network_list_from (i + 1) rest

def format_network_list (networks : List NetworkInfo) : String :=
  format_network_list_from 0 networks

/-- `generate_scan_response` (lines 541-555). -/
def generate_scan_response (sys : Sys) : RespOut :=
  let (ok, w, e) := sys.wifi.scan_networks
  let sys1 := { sys with wifi := w }
  if !ok then ⟨"Failed to scan for WiFi networks. Please try again.", sys1, e⟩
  else
    let networks := w.scanned_networks
    if networks.isEmpty then ⟨"No WiFi networks found.", sys1, e⟩
    else
      ⟨"WiFi scan completed. Found " ++ toString networks.length ++ " networks:\n\n" ++
       format_network_list networks ++
       "\nUse 'connect <index>' to connect to a network.", sys1, e⟩

/-- `generate_list_response` (lines 557-567). -/
def generate_list_response (sys : Sys) : RespOut :=
  let networks := sys.wifi.scanned_networks
  if networks.isEmpty then
    ⟨"No networks available. Use 'scan' to search for WiFi networks.", sys, []⟩
  else
    ⟨"Previously scanned networks:\n\n" ++ format_network_list networks ++
     "\nUse 'connect <index>' to connect to a network.", sys, []⟩

/-- `generate_connect_response` (lines 569-624).  The index is accumulated
into a C int exactly as the source loop does (`wrap32` models the 32-bit
overflow of `index = index * 10 + (c - '0')`). -/
def generate_connect_response (sys : Sys) (args : List String) : RespOut :=
  if args.length < 1 then
    ⟨"Usage: connect <index>\nExample: connect 0\nUse 'list' to see available networks.",
     sys, []⟩
  else
    let index_str := args.getD 0 ""
    let valid_number := index_str.data.all isDigitChar
    if valid_number && !(index_str = "") then
      let index := parseInt32 index_str
      let networks := sys.wifi.scanned_networks
      if networks.isEmpty then
        ⟨"No networks available. Use 'scan' to search for WiFi networks first.", sys, []⟩
      else if index < 0 || (networks.length : Int) ≤ index then
        ⟨"Network index out of range. Use 'list' to see available networks.", sys, []⟩
      else
        let network := networks.getD index.toNat defaultNetwork
        if network.auth_mode ≠ AuthMode.open_ then
          ⟨"Password-protected networks not yet supported via BLE interface.\n" ++
           "Please use USB Serial JTAG interface for password entry.", sys, []⟩
        else
          let (ok, w, e) := sys.wifi.connect_to_network network.ssid ""
          let sys1 := { sys with wifi := w }
          if ok then
            ⟨"Connecting to '" ++ network.ssid ++ "'...\n" ++
             "Successfully connected to " ++ network.ssid ++ "\n" ++
             "IP Address: " ++ w.get_ip_address, sys1, e⟩
          else
            ⟨"Connecting to '" ++ network.ssid ++ "'...\n" ++
             "Failed to connect to " ++ network.ssid ++
             ". Please check network availability.", sys1, e⟩
    else
      ⟨"Invalid network index. Please provide a valid number.", sys, []⟩

/-- `generate_status_response` (lines 626-636). -/
def generate_status_response (sys : Sys) : RespOut :=
  if sys.wifi.is_connected then
    ⟨"WiFi Status: Connected\n" ++
     "Network: " ++ sys.wifi.get_connected_ssid ++ "\n" ++
     "IP Address: " ++ sys.wifi.get_ip_address ++ "\n" ++
     "Signal Strength: " ++ toString sys.wifi.get_rssi ++ " dBm", sys, []⟩
  else
    ⟨"WiFi Status: Disconnected\nUse 'scan' and 'connect' to join a network.", sys, []⟩

/-- `generate_disconnect_response` (lines 638-649). -/
def generate_disconnect_response (sys : Sys) : RespOut :=
  if !sys.wifi.is_connected then ⟨"WiFi is not connected.", sys, []⟩
  else
    let ssid := sys.wifi.get_connected_ssid
    let (ok, w, e) := sys.wifi.disconnect
    let sys1 := { sys with wifi := w }
    if ok then ⟨"Disconnected from " ++ ssid, sys1, e⟩
    else ⟨"Failed to disconnect from " ++ ssid, sys1, e⟩

/-- `generate_ble_start_response` (lines 665-675). -/
def generate_ble_start_response (sys : Sys) : RespOut :=
  match sys.ble with
  | none => ⟨"BLE manager not available.", sys, []⟩
  | some b =>
    let (ok, b1, e) := b.start_advertising "ESP32-P4-WiFi"
    let sys1 := { sys with ble := some b1 }
    if ok then
      ⟨"BLE advertising started successfully.\nDevice name: ESP32-P4-WiFi\n" ++
       "Service: Nordic UART Service\nNote: Currently stub implementation.", sys1, e⟩
    else ⟨"Failed to start BLE advertising.", sys1, e⟩

/-- `generate_ble_stop_response` (lines 677-687). -/
def generate_ble_stop_response (sys : Sys) : RespOut :=
  match sys.ble with
  | none => ⟨"BLE manager not available.", sys, []⟩
  | some b =>
    let (ok, b1, e) := b.stop_advertising
    let sys1 := { sys with ble := some b1 }
    if ok then ⟨"BLE advertising stopped.", sys1, e⟩
    else ⟨"Failed to stop BLE advertising.", sys1, e⟩

/-- `generate_ble_status_response` (lines 689-708). -/
def generate_ble_status_response (sys : Sys) : RespOut :=
  match sys.ble with
  | none => ⟨"BLE manager not available.", sys, []⟩
  | some b =>
    ⟨"=== BLE Status ===\n" ++
     "Implementation: ESP-Hosted NimBLE via ESP32-C6\n" ++
     "Architecture: ESP32-P4 + ESP32-C6 coprocessor\n" ++
     "Initialized: Yes\n" ++
     "Advertising: " ++ (if b.is_connected then "Connected" else "Available") ++ "\n" ++
     "Connected: " ++ (if b.is_connected then "Yes" else "No") ++ "\n" ++
     "Device Name: ESP32-P4-WiFi\n" ++
     "Service: Nordic UART Service (NUS)\n" ++
     "\nConfiguration Status:\n" ++
     "- ESP32-C6 Coprocessor: Active\n" ++
     "- VHCI Transport: Active\n" ++
     "- NimBLE Stack: Running\n" ++
     "\nUse 'ble_debug' for detailed info.", sys, []⟩

/-- `generate_ble_name_response` (lines 710-721). -/
def generate_ble_name_response (sys : Sys) (args : List String) : RespOut :=
  match sys.ble with
  | none => ⟨"BLE manager not available.", sys, []⟩
  | some _ =>
    if args.length < 1 then
      ⟨"Usage: ble_name <device_name>\nExample: ble_name MyESP32-P4", sys, []⟩
    else
      ⟨"BLE device name set to: " ++ args.getD 0 "" ++
       "\nNote: Name change will take effect on next advertising start.", sys, []⟩

/-- The duration value left in the C int by the parsing block of
`generate_ble_scan_response` (lines 728-750): digits accumulated with
32-bit wrap, in-range check 1..60, silent fall back to 5 otherwise. -/
def bleScanDuration (args : List String) : Int :=
  match args.headD "" , args.length with
  | _, 0 => 5
  | duration_str, _ =>
    if duration_str.data.all isDigitChar && !(duration_str = "") then
      let duration := parseInt32 duration_str
      if duration < 1 || duration > 60 then 5 else duration
    else 5

/-- The per-device lines of the scan report: `"  " + get_scan_result(i) + "\n"`
for i in 0..count-1. -/
def scanResultLines (results : List ScanResult) : String :=
  (List.range results.length).foldl
    (fun acc i => acc ++ "  " ++ get_scan_result results (i : Int) ++ "\n") ""

/-- `generate_ble_scan_response` (lines 723-772). -/
def generate_ble_scan_response (sys : Sys) (args : List String) : RespOut :=
  match sys.ble with
  | none => ⟨"BLE manager not available.", sys, []⟩
  | some b =>
    let duration := bleScanDuration args
    let (ok, b1, e) := b.start_scan duration
    let sys1 := { sys with ble := some b1 }
    if ok then
      let count := b1.scan_results.length
      ⟨"Starting BLE scan for " ++ toString duration ++ " seconds...\n" ++
       "Scan completed. Found " ++ toString count ++ " devices:\n\n" ++
       scanResultLines b1.scan_results ++
       (if count = 0 then "No BLE devices found.\n" else "") ++
       "\nReal BLE scanning via ESP32-C6 coprocessor.", sys1, e⟩
    else
      ⟨"Starting BLE scan for " ++ toString duration ++ " seconds...\n" ++
       "Failed to start BLE scan.", sys1, e⟩

/-- `generate_ble_debug_response` (lines 774-780). -/
def generate_ble_debug_response (sys : Sys) : RespOut :=
  match sys.ble with
  | none => ⟨"BLE manager not available.", sys, []⟩
  | some b => ⟨b.get_debug_status, sys, []⟩

/-! ### Console-track handlers (`handle_*`)

One list entry per `printf` call, in call order. -/

/-- `handle_help` (lines 244-268). -/
def handle_help (sys : Sys) : ConsOut :=
  ⟨["\n=== Available Commands ===\n",
    "\n--- WiFi Commands ---\n",
    "help, h                    - Show this help message\n",
    "scan, s                    - Scan for available WiFi networks\n",
    "list, l                    - List previously scanned networks\n",
    "connect, c <ssid> <pass>   - Connect to a WiFi network\n",
    "status, st                 - Show current connection status\n",
    "disconnect, d              - Disconnect from current network\n",
    "\n--- BLE Commands ---\n",
    "ble_start, bs              - Start BLE advertising\n",
    "ble_stop, bp               - Stop BLE advertising\n",
    "ble_status, bt             - Show BLE status\n",
    "ble_name, bn <name>        - Set BLE device name\n",
    "ble_scan, bsc [duration]   - Scan for BLE devices (default: 5s)\n",
    "ble_debug, bd              - Show detailed BLE debug info\n",
    "\n",
    "Examples:\n",
    "  scan\n",
    "  connect \"MyNetwork\" \"MyPassword\"\n",
    "  ble_start\n",
    "  ble_scan 10\n",
    "  ble_debug\n",
    "\n"], sys, []⟩

/-- `print_network_list` (lines 492-506); the row index is printed 1-based
with printf's %2zu / %-32s / %4d field widths. -/
def print_network_list_rows (i : Nat) : List NetworkInfo → List String
  | [] => []
  | n :: rest =>
    (padLeft (toString (i + 1)) 2 ++ ". " ++ padRight n.ssid 32 ++ " " ++
     padLeft (toString n.rssi) 4 ++ "  " ++ auth_mode_to_string n.auth_mode ++ "\n") ::
    print_network_list_rows (i + 1) rest

def print_network_list (networks : List NetworkInfo) : List String :=
  ["\n=== Available WiFi Networks ===\n",
   "No. " ++ padRight "SSID" 32 ++ " RSSI  Security\n",
   "--- " ++ padRight "--------------------------------" 32 ++ " ----  --------\n"] ++
  print_network_list_rows 0 networks ++ ["\n"]

/-- `handle_scan` (lines 270-284). -/
def handle_scan (sys : Sys) : ConsOut :=
  let (ok, w, e) := sys.wifi.scan_networks
  let sys1 := { sys with wifi := w }
  if ok then
    let networks := w.scanned_networks
    if networks.isEmpty then
      ⟨["Scanning for WiFi networks...\n", "No networks found.\n"], sys1, e⟩
    else
      ⟨["Scanning for WiFi networks...\n",
        "Scan completed. Found " ++ toString networks.length ++ " networks.\n"] ++
       print_network_list networks, sys1, e⟩
  else ⟨["Scanning for WiFi networks...\n", "Failed to scan networks.\n"], sys1, e⟩

/-- `handle_list` (lines 286-295). -/
def handle_list (sys : Sys) : ConsOut :=
  let networks := sys.wifi.scanned_networks
  if networks.isEmpty then
    ⟨["No networks available. Run 'scan' first.\n"], sys, []⟩
  else ⟨print_network_list networks, sys, []⟩

/-- `handle_connect` (lines 297-319); source reads args[1], args[2] of the
full token vector. -/
def handle_connect (sys : Sys) (args : List String) : ConsOut :=
  if args.length < 2 then
    ⟨["Usage: connect <ssid> <password>\n",
      "Example: connect \"MyNetwork\" \"MyPassword\"\n"], sys, []⟩
  else
    let ssid := args.getD 0 ""
    let password := args.getD 1 ""
    let (ok, w, e) := sys.wifi.connect_to_network ssid password
    let sys1 := { sys with wifi := w }
    if ok then
      ⟨["Connecting to network: " ++ ssid ++ "\n",
        "\n=== Connection Successful ===\n",
        "Connected to: " ++ ssid ++ "\n",
        "IP Address: " ++ w.get_ip_address ++ "\n",
        "Signal Strength: " ++ toString w.get_rssi ++ " dBm\n",
        "\n"], sys1, e⟩
    else
      ⟨["Connecting to network: " ++ ssid ++ "\n",
        "Failed to connect to: " ++ ssid ++ "\n",
        "Please check the network name and password.\n"], sys1, e⟩

/-- `handle_status` (lines 321-334). -/
def handle_status (sys : Sys) : ConsOut :=
  if sys.wifi.is_connected then
    ⟨["\n=== Connection Status ===\n",
      "Status: Connected\n",
      "Network: " ++ sys.wifi.get_connected_ssid ++ "\n",
      "IP Address: " ++ sys.wifi.get_ip_address ++ "\n",
      "Signal Strength: " ++ toString sys.wifi.get_rssi ++ " dBm\n",
      "\n"], sys, []⟩
  else
    ⟨["\n=== Connection Status ===\n",
      "Status: Disconnected\n",
      "No active WiFi connection.\n",
      "\n"], sys, []⟩

/-- `handle_disconnect` (lines 336-350). -/
def handle_disconnect (sys : Sys) : ConsOut :=
  if !sys.wifi.is_connected then
    ⟨["Not connected to any network.\n"], sys, []⟩
  else
    let ssid := sys.wifi.get_connected_ssid
    let (ok, w, e) := sys.wifi.disconnect
    let sys1 := { sys with wifi := w }
    if ok then
      ⟨["Disconnecting from: " ++ ssid ++ "\n", "Disconnected successfully.\n"], sys1, e⟩
    else
      ⟨["Disconnecting from: " ++ ssid ++ "\n", "Failed to disconnect.\n"], sys1, e⟩

/-- `handle_ble_start` (lines 353-367). -/
def handle_ble_start (sys : Sys) : ConsOut :=
  match sys.ble with
  | none => ⟨["BLE manager not available.\n"], sys, []⟩
  | some b =>
    let (ok, b1, e) := b.start_advertising "ESP32-P4-WiFi"
    let sys1 := { sys with ble := some b1 }
    if ok then
      ⟨["Starting BLE advertising...\n",
        "BLE advertising started successfully.\n",
        "Device name: ESP32-P4-WiFi\n",
        "You can now connect via BLE UART apps.\n"], sys1, e⟩
    else
      ⟨["Starting BLE advertising...\n", "Failed to start BLE advertising.\n"], sys1, e⟩

/-- `handle_ble_stop` (lines 369-381). -/
def handle_ble_stop (sys : Sys) : ConsOut :=
  match sys.ble with
  | none => ⟨["BLE manager not available.\n"], sys, []⟩
  | some b =>
    let (ok, b1, e) := b.stop_advertising
    let sys1 := { sys with ble := some b1 }
    if ok then
      ⟨["Stopping BLE advertising...\n", "BLE advertising stopped.\n"], sys1, e⟩
    else
      ⟨["Stopping BLE advertising...\n", "Failed to stop BLE advertising.\n"], sys1, e⟩

/-- `handle_ble_status` (lines 383-403). -/
def handle_ble_status (sys : Sys) : ConsOut :=
  match sys.ble with
  | none => ⟨["BLE manager not available.\n"], sys, []⟩
  | some b =>
    ⟨["\n=== BLE Status ===\n",
      "Implementation: ESP-Hosted NimBLE via ESP32-C6\n",
      "Architecture: ESP32-P4 + ESP32-C6 coprocessor\n",
      "Initialized: Yes\n",
      "Advertising: " ++ (if b.is_connected then "Connected" else "Available") ++ "\n",
      "Connected: " ++ (if b.is_connected then "Yes" else "No") ++ "\n",
      "Device Name: ESP32-P4-WiFi\n",
      "Service: Nordic UART Service (NUS)\n",
      "\nConfiguration Status:\n",
      "- ESP32-C6 Coprocessor: Active\n",
      "- VHCI Transport: Active\n",
      "- NimBLE Stack: Running\n",
      "\nUse 'ble_debug' for detailed status info.\n",
      "\n"], sys, []⟩

/-- `handle_ble_name` (lines 405-423). -/
def handle_ble_name (sys : Sys) (args : List String) : ConsOut :=
  match sys.ble with
  | none => ⟨["BLE manager not available.\n"], sys, []⟩
  | some _ =>
    if args.length < 1 then
      ⟨["Usage: ble_name <device_name>\n",
        "Example: ble_name \"MyESP32-P4\"\n"], sys, []⟩
    else
      ⟨["Setting BLE device name to: " ++ args.getD 0 "" ++ "\n",
        "Note: Name change will take effect on next advertising start.\n",
        "BLE name setting completed.\n"], sys, []⟩

/-- The duration-parsing block of `handle_ble_scan` (lines 431-456): the
chosen duration together with the complaint it prints, if any. -/
def consoleBleScanParse (args : List String) : Int × List String :=
  match args.headD "" , args.length with
  | _, 0 => (5, [])
  | duration_str, _ =>
    if duration_str.data.all isDigitChar && !(duration_str = "") then
      let duration := parseInt32 duration_str
      if duration < 1 || duration > 60 then
        (5, ["Invalid duration. Using default 5 seconds.\n"])
      else (duration, [])
    else (5, ["Invalid duration format. Using default 5 seconds.\n"])

/-- `handle_ble_scan` (lines 425-474). -/
def handle_ble_scan (sys : Sys) (args : List String) : ConsOut :=
  match sys.ble with
  | none => ⟨["BLE manager not available.\n"], sys, []⟩
  | some b =>
    let (duration, parseMsgs) := consoleBleScanParse args
    let (ok, b1, e) := b.start_scan duration
    let sys1 := { sys with ble := some b1 }
    if ok then
      let count := b1.scan_results.length
      ⟨parseMsgs ++
       ["Starting BLE device scan for " ++ toString duration ++ " seconds...\n",
        "Scan completed. Found " ++ toString count ++ " devices:\n"] ++
       (List.range count).map
         (fun i => "  " ++ get_scan_result b1.scan_results (i : Int) ++ "\n") ++
       (if count = 0 then ["No BLE devices found.\n"] else []), sys1, e⟩
    else
      ⟨parseMsgs ++
       ["Starting BLE device scan for " ++ toString duration ++ " seconds...\n",
        "Failed to start BLE scan.\n"], sys1, e⟩

/-- `handle_ble_debug` (lines 476-485). -/
def handle_ble_debug (sys : Sys) : ConsOut :=
  match sys.ble with
  | none => ⟨["BLE manager not available.\n"], sys, []⟩
  | some b => ⟨["\n", b.get_debug_status ++ "\n"], sys, []⟩

/-- `handle_unknown_command` (lines 487-490), with the original-case token. -/
def handle_unknown_command (sys : Sys) (command : String) : ConsOut :=
  ⟨["Unknown command: " ++ command ++ "\n",
    "Type 'help' for available commands.\n"], sys, []⟩

/-! ### Relay command handlers

The relay handlers are declared in command_interpreter.hpp (handle_relay_*,
generate_relay_*_response, set_relay_manager) and invoked through main.cpp,
but their definitions and dispatch branches are not in the src/ snapshot.
They are modelled from the spec: the keyword set is the command table of
spec section 4.2 (relay_on, relay_off, relay_toggle, relay_status,
relay_debug, no aliases); per sections 4.2 and 7 every handler of the group
starts with the null-collaborator check and short-circuits to a fixed
"manager not available" message on both tracks, phrased like the BLE
group's source message; the present-collaborator paths drive the
RelayManager operations defined in relay_manager.cpp. -/

/-- Modelled from the spec: the relay target argument, "1"/"2"/"all"
(Relay-1, Relay-2 and the All fan-out pseudo-target of section 3). -/
def parseRelayTarget (args : List String) : Option RelayId :=
  match args.headD "" , args.length with
  | _, 0 => none
  | s, _ =>
    if s = "1" then some RelayId.RELAY_1
    else if s = "2" then some RelayId.RELAY_2
    else if s = "all" then some RelayId.ALL_RELAYS
    else none

/-- Modelled from the spec: missing from src/, declared in
command_interpreter.hpp line 92; response-track relay_on. -/
def generate_relay_on_response (sys : Sys) (args : List String) : RespOut :=
  match sys.relay with
  | none => ⟨"Relay manager not available.", sys, []⟩
  | some r =>
    match parseRelayTarget args with
    | none => ⟨"Usage: relay_on <1|2|all>", sys, []⟩
    | some target =>
      let (ok, r1, e) := turn_on r target
      let sys1 := { sys with relay := some r1 }
      if ok then ⟨"Relay turned ON.", sys1, e⟩
      else ⟨"Failed to set relay state.", sys1, e⟩

/-- Modelled from the spec: missing from src/, declared in
command_interpreter.hpp line 93; response-track relay_off. -/
def generate_relay_off_response (sys : Sys) (args : List String) : RespOut :=
  match sys.relay with
  | none => ⟨"Relay manager not available.", sys, []⟩
  | some r =>
    match parseRelayTarget args with
    | none => ⟨"Usage: relay_off <1|2|all>", sys, []⟩
    | some target =>
      let (ok, r1, e) := turn_off r target
      let sys1 := { sys with relay := some r1 }
      if ok then ⟨"Relay turned OFF.", sys1, e⟩
      else ⟨"Failed to set relay state.", sys1, e⟩

/-- Modelled from the spec: missing from src/, declared in
command_interpreter.hpp line 94; response-track relay_toggle. -/
def generate_relay_toggle_response (sys : Sys) (args : List String) : RespOut :=
  match sys.relay with
  | none => ⟨"Relay manager not available.", sys, []⟩
  | some r =>
    match parseRelayTarget args with
    | none => ⟨"Usage: relay_toggle <1|2|all>", sys, []⟩
    | some target =>
      let (ok, r1, e) := toggle r target
      let sys1 := { sys with relay := some r1 }
      if ok then ⟨"Relay toggled.", sys1, e⟩
      else ⟨"Failed to toggle relay.", sys1, e⟩

/-- Modelled from the spec: missing from src/, declared in
command_interpreter.hpp line 95; response-track relay_status. -/
def generate_relay_status_response (sys : Sys) : RespOut :=
  match sys.relay with
  | none => ⟨"Relay manager not available.", sys, []⟩
  | some r => ⟨r.get_status, sys, []⟩

/-- Modelled from the spec: missing from src/, declared in
command_interpreter.hpp line 96; response-track relay_debug. -/
def generate_relay_debug_response (sys : Sys) : RespOut :=
  match sys.relay with
  | none => ⟨"Relay manager not available.", sys, []⟩
  | some r => ⟨r.get_debug_status, sys, []⟩

/-- Modelled from the spec: missing from src/, declared in
command_interpreter.hpp line 62; console-track relay_on. -/
def handle_relay_on (sys : Sys) (args : List String) : ConsOut :=
  match sys.relay with
  | none => ⟨["Relay manager not available.\n"], sys, []⟩
  | some r =>
    match parseRelayTarget args with
    | none => ⟨["Usage: relay_on <1|2|all>\n"], sys, []⟩
    | some target =>
      let (ok, r1, e) := turn_on r target
      let sys1 := { sys with relay := some r1 }
      if ok then ⟨["Relay turned ON.\n"], sys1, e⟩
      else ⟨["Failed to set relay state.\n"], sys1, e⟩

/-- Modelled from the spec: missing from src/, declared in
command_interpreter.hpp line 63; console-track relay_off. -/
def handle_relay_off (sys : Sys) (args : List String) : ConsOut :=
  match sys.relay with
  | none => ⟨["Relay manager not available.\n"], sys, []⟩
  | some r =>
    match parseRelayTarget args with
    | none => ⟨["Usage: relay_off <1|2|all>\n"], sys, []⟩
    | some target =>
      let (ok, r1, e) := turn_off r target
      let sys1 := { sys with relay := some r1 }
      if ok then ⟨["Relay turned OFF.\n"], sys1, e⟩
      else ⟨["Failed to set relay state.\n"], sys1, e⟩

/-- Modelled from the spec: missing from src/, declared in
command_interpreter.hpp line 64; console-track relay_toggle. -/
def handle_relay_toggle (sys : Sys) (args : List String) : ConsOut :=
  match sys.relay with
  | none => ⟨["Relay manager not available.\n"], sys, []⟩
  | some r =>
    match parseRelayTarget args with
    | none => ⟨["Usage: relay_toggle <1|2|all>\n"], sys, []⟩
    | some target =>
      let (ok, r1, e) := toggle r target
      let sys1 := { sys with relay := some r1 }
      if ok then ⟨["Relay toggled.\n"], sys1, e⟩
      else ⟨["Failed to toggle relay.\n"], sys1, e⟩

/-- Modelled from the spec: missing from src/, declared in
command_interpreter.hpp line 65; console-track relay_status. -/
def handle_relay_status (sys : Sys) : ConsOut :=
  match sys.relay with
  | none => ⟨["Relay manager not available.\n"], sys, []⟩
  | some r => ⟨[r.get_status ++ "\n"], sys, []⟩

/-- Modelled from the spec: missing from src/, declared in
command_interpreter.hpp line 66; console-track relay_debug. -/
def handle_relay_debug (sys : Sys) : ConsOut :=
  match sys.relay with
  | none => ⟨["Relay manager not available.\n"], sys, []⟩
  | some r => ⟨["\n", r.get_debug_status ++ "\n"], sys, []⟩

/-! ### Dispatcher -/

/-- The command-table entries of the two dispatch chains. -/
inductive Cmd where
  | help | scan | list | connect | status | disconnect
  | bleStart | bleStop | bleStatus | bleName | bleScan | bleDebug
  | relayOn | relayOff | relayToggle | relayStatus | relayDebug
deriving DecidableEq, Repr

/-- The keyword → handler table, applied to the lowercased first token.
The if-chain order follows `process_command_with_response` (lines
215-241); the five relay keywords are modelled from the spec's command
table (section 4.2), since their dispatch branches are not in src/. -/
def lookupCmd (cmd : String) : Option Cmd :=
  if cmd = "help" || cmd = "h" then some Cmd.help
  else if cmd = "scan" || cmd = "s" then some Cmd.scan
  else if cmd = "list" || cmd = "l" then some Cmd.list
  else if cmd = "connect" || cmd = "c" then some Cmd.connect
  else if cmd = "status" || cmd = "st" then some Cmd.status
  else if cmd = "disconnect" || cmd = "d" then some Cmd.disconnect
  else if cmd = "ble_start" || cmd = "bs" then some Cmd.bleStart
  else if cmd = "ble_stop" || cmd = "bp" then some Cmd.bleStop
  else if cmd = "ble_status" || cmd = "bt" then some Cmd.bleStatus
  else if cmd = "ble_name" || cmd = "bn" then some Cmd.bleName
  else if cmd = "ble_scan" || cmd = "bsc" then some Cmd.bleScan
  else if cmd = "ble_debug" || cmd = "bd" then some Cmd.bleDebug
  else if cmd = "relay_on" then some Cmd.relayOn
  else if cmd = "relay_off" then some Cmd.relayOff
  else if cmd = "relay_toggle" then some Cmd.relayToggle
  else if cmd = "relay_status" then some Cmd.relayStatus
  else if cmd = "relay_debug" then some Cmd.relayDebug
  else none

/-- The response-track dispatch on a non-empty token sequence
(`process_command_with_response` lines 211-241). -/
def dispatchResponse (sys : Sys) : List String → RespOut
  | [] => ⟨"Invalid command. Type 'help' for available commands.", sys, []⟩
  | t0 :: rest =>
    match lookupCmd (lowerStr t0) with
    | some Cmd.help => generate_help_response sys
    | some Cmd.scan => generate_scan_response sys
    | some Cmd.list => generate_list_response sys
    | some Cmd.connect => generate_connect_response sys rest
    | some Cmd.status => generate_status_response sys
    | some Cmd.disconnect => generate_disconnect_response sys
    | some Cmd.bleStart => generate_ble_start_response sys
    | some Cmd.bleStop => generate_ble_stop_response sys
    | some Cmd.bleStatus => generate_ble_status_response sys
    | some Cmd.bleName => generate_ble_name_response sys rest
    | some Cmd.bleScan => generate_ble_scan_response sys rest
    | some Cmd.bleDebug => generate_ble_debug_response sys
    | some Cmd.relayOn => generate_relay_on_response sys rest
    | some Cmd.relayOff => generate_relay_off_response sys rest
    | some Cmd.relayToggle => generate_relay_toggle_response sys rest
    | some Cmd.relayStatus => generate_relay_status_response sys
    | some Cmd.relayDebug => generate_relay_debug_response sys
    | none =>
      ⟨"Unknown command: '" ++ t0 ++ "'. Type 'help' for available commands.", sys, []⟩

/-- The console-track dispatch on a non-empty token sequence
(`process_command` lines 159-189). -/
def dispatchConsole (sys : Sys) : List String → ConsOut
  | [] => ⟨[], sys, []⟩
  | t0 :: rest =>
    match lookupCmd (lowerStr t0) with
    | some Cmd.help => handle_help sys
    | some Cmd.scan => handle_scan sys
    | some Cmd.list => handle_list sys
    | some Cmd.connect => handle_connect sys rest
    | some Cmd.status => handle_status sys
    | some Cmd.disconnect => handle_disconnect sys
    | some Cmd.bleStart => handle_ble_start sys
    | some Cmd.bleStop => handle_ble_stop sys
    | some Cmd.bleStatus => handle_ble_status sys
    | some Cmd.bleName => handle_ble_name sys rest
    | some Cmd.bleScan => handle_ble_scan sys rest
    | some Cmd.bleDebug => handle_ble_debug sys
    | some Cmd.relayOn => handle_relay_on sys rest
    | some Cmd.relayOff => handle_relay_off sys rest
    | some Cmd.relayToggle => handle_relay_toggle sys rest
    | some Cmd.relayStatus => handle_relay_status sys
    | some Cmd.relayDebug => handle_relay_debug sys
    | none => handle_unknown_command sys t0

/-- `CommandInterpreter::process_command` (lines 149-190): the console
track; empty input and whitespace-only input dispatch nothing. -/
def process_command (sys : Sys) (command : String) : ConsOut :=
  if command = "" then ⟨[], sys, []⟩
  else
    match parse_command command with
    | [] => ⟨[], sys, []⟩
    | t0 :: rest => dispatchConsole sys (t0 :: rest)

/-- `CommandInterpreter::process_command_with_response` (lines 192-242):
the response track. -/
def process_command_with_response (sys : Sys) (command : String) : RespOut :=
  if command = "" then
    ⟨"Enter a command. Type 'help' for available commands.", sys, []⟩
  else
    let clean_cmd := cleanCommand command
    if clean_cmd = "" then
      ⟨"Enter a command. Type 'help' for available commands.", sys, []⟩
    else dispatchResponse sys (parse_command clean_cmd)

/-- `BLEManager::process_received_data` (ble_manager.cpp lines 520-533)
with the callback registered by main.cpp (lines 57-59), which is
`process_command_with_response`; the Bool records whether
`send_response` was invoked (it is called exactly when the computed
response is non-empty). -/
def ble_process_received_data (sys : Sys) (data : String) : RespOut × Bool :=
  let r := process_command_with_response sys data
  if r.response = "" then (r, false)
  else ({ r with effects := r.effects ++ [Effect.notifySend r.response] }, true)

/-! ### Concrete collaborator states used by the witnesses below -/

/-- Executable substring test over char lists. -/
def isInfixChars (needle : List Char) : List Char → Bool
  | [] => needle.isEmpty
  | c :: t => needle.isPrefixOf (c :: t) || isInfixChars needle t

/-- An initialized WiFi manager with no scan results; the radio answers
every request favourably. -/
def wifi0 : WiFiState :=
  ⟨true, false, "", 0, [], some [], true, true, "10.0.0.2", -40⟩

/-- A system with no BLE and no relay collaborator attached. -/
def sysNone : Sys := ⟨wifi0, none, none⟩

/-- Eleven scanned open networks Net0 .. Net10. -/
def netsOpen11 : List NetworkInfo :=
  (List.range 11).map (fun i => ⟨"Net" ++ toString i, -40, AuthMode.open_⟩)

def sys11 : Sys := ⟨{ wifi0 with scanned_networks := netsOpen11 }, none, none⟩

/-- An open network and a WPA2 network, as scanned. -/
def nets2 : List NetworkInfo :=
  [⟨"CafeWiFi", -70, AuthMode.open_⟩, ⟨"HomeNet", -40, AuthMode.wpa2⟩]

def sys2 : Sys := ⟨{ wifi0 with scanned_networks := nets2 }, none, none⟩

/-- An initialized, idle BLE manager whose scan attempt fails at the stack. -/
def ble0 : BLEState :=
  ⟨true, false, false, false, 0xffff, "ESP32-P4-WiFi", 3, [], true, true, none⟩

def sysB : Sys := ⟨wifi0, some ble0, none⟩

/-- An initialized relay manager, both relays off. -/
def rm0 : RelayManager := ⟨true, RelayState.OFF, RelayState.OFF, 0, 0, 0, 0, 0⟩

end Esp32.command_interface

namespace Esp32

theorem data_append (a b : String) : (a ++ b).data = a.data ++ b.data := rfl

theorem append_ne_empty (a b : String) (h : a ≠ "") : a ++ b ≠ "" := by
  intro he
  apply h
  have hd := congrArg String.data he
  rw [data_append] at hd
  rcases List.append_eq_nil.mp hd with ⟨h1, _⟩
  exact String.ext h1

theorem tokenizeAux_spaces (r : List Char) (h : ∀ c ∈ r, isSpaceChar c = true) (acc : List Char) :
    tokenizeAux r acc = if acc.isEmpty then [] else [acc.reverse] := by
  induction r generalizing acc with
  | nil => rfl
  | cons c cs ih =>
    have hc : isSpaceChar c = true := h c (List.mem_cons_self c cs)
    have hcs : ∀ x ∈ cs, isSpaceChar x = true := fun x hx => h x (List.mem_cons_of_mem c hx)
    by_cases ha : acc.isEmpty
    · simp only [tokenizeAux, hc, if_pos ha, ha, if_true]
      have := ih hcs []
      simpa using this
    · simp only [tokenizeAux, hc, ha, if_neg, if_false]
      have := ih hcs []
      simp at this
      simp [this, ha]

theorem tokenizeAux_append_spaces (xs r : List Char)
    (h : ∀ c ∈ r, isSpaceChar c = true) (acc : List Char) :
    tokenizeAux (xs ++ r) acc = tokenizeAux xs acc := by
  induction xs generalizing acc with
  | nil =>
    simp only [List.nil_append]
    rw [tokenizeAux_spaces r h acc]
    rfl
  | cons c cs ih =>
    simp only [List.cons_append, tokenizeAux]
    by_cases hc : isSpaceChar c
    · simp only [hc, if_true]
      by_cases ha : acc.isEmpty
      · simp [ha, ih]
      · simp [ha, ih]
    · simp [hc, ih]

theorem tokenizeAux_dropWhile (l : List Char) :
    tokenizeAux (l.dropWhile isSpaceChar) [] = tokenizeAux l [] := by
  induction l with
  | nil => rfl
  | cons c cs ih =>
    by_cases hc : isSpaceChar c
    · rw [List.dropWhile_cons_of_pos hc]
      rw [ih]
      simp [tokenizeAux, hc]
    · rw [List.dropWhile_cons_of_neg hc]

theorem parse_command_clean (s : String) :
    parse_command (cleanCommand s) = parse_command s := by
  unfold parse_command cleanCommand
  congr 1
  show tokenizeAux ((dropTrailingSpace s.data).dropWhile isSpaceChar) [] = tokenizeAux s.data []
  rw [tokenizeAux_dropWhile]
  unfold dropTrailingSpace
  have hsplit : s.data = (s.data.reverse.dropWhile isSpaceChar).reverse ++
      (s.data.reverse.takeWhile isSpaceChar).reverse := by
    rw [← List.reverse_append, List.takeWhile_append_dropWhile, List.reverse_reverse]
  conv_rhs => rw [hsplit]
  rw [tokenizeAux_append_spaces]
  intro c hc
  rw [List.mem_reverse] at hc
  exact List.mem_takeWhile_imp hc

end Esp32

namespace Esp32.command_interface

open Esp32 Esp32.wifi_config Esp32.ble_serial Esp32.relay_control

theorem generate_help_response_ne (sys : Sys) : (generate_help_response sys).response ≠ "" := by
  unfold generate_help_response
  try dsimp only
  decide

theorem generate_scan_response_ne (sys : Sys) : (generate_scan_response sys).response ≠ "" := by
  unfold generate_scan_response
  try dsimp only
  repeat' split
  all_goals try dsimp only
  all_goals repeat apply append_ne_empty
  all_goals decide

theorem generate_list_response_ne (sys : Sys) : (generate_list_response sys).response ≠ "" := by
  unfold generate_list_response
  try dsimp only
  repeat' split
  all_goals try dsimp only
  all_goals repeat apply append_ne_empty
  all_goals decide

theorem generate_connect_response_ne (sys : Sys) (args : List String) :
    (generate_connect_response sys args).response ≠ "" := by
  unfold generate_connect_response
  try dsimp only
  repeat' split
  all_goals try dsimp only
  all_goals repeat apply append_ne_empty
  all_goals decide

theorem generate_status_response_ne (sys : Sys) : (generate_status_response sys).response ≠ "" := by
  unfold generate_status_response
  try dsimp only
  repeat' split
  all_goals try dsimp only
  all_goals repeat apply append_ne_empty
  all_goals decide

theorem generate_disconnect_response_ne (sys : Sys) :
    (generate_disconnect_response sys).response ≠ "" := by
  unfold generate_disconnect_response
  try dsimp only
  repeat' split
  all_goals try dsimp only
  all_goals repeat apply append_ne_empty
  all_goals decide

theorem generate_ble_start_response_ne (sys : Sys) :
    (generate_ble_start_response sys).response ≠ "" := by
  unfold generate_ble_start_response
  try dsimp only
  repeat' split
  all_goals try dsimp only
  all_goals repeat apply append_ne_empty
  all_goals decide

theorem generate_ble_stop_response_ne (sys : Sys) :
    (generate_ble_stop_response sys).response ≠ "" := by
  unfold generate_ble_stop_response
  try dsimp only
  repeat' split
  all_goals try dsimp only
  all_goals decide

theorem generate_ble_status_response_ne (sys : Sys) :
    (generate_ble_status_response sys).response ≠ "" := by
  unfold generate_ble_status_response
  try dsimp only
  repeat' split
  all_goals try dsimp only
  all_goals repeat apply append_ne_empty
  all_goals decide

theorem generate_ble_name_response_ne (sys : Sys) (args : List String) :
    (generate_ble_name_response sys args).response ≠ "" := by
  unfold generate_ble_name_response
  try dsimp only
  repeat' split
  all_goals try dsimp only
  all_goals repeat apply append_ne_empty
  all_goals decide

theorem generate_ble_scan_response_ne (sys : Sys) (args : List String) :
    (generate_ble_scan_response sys args).response ≠ "" := by
  unfold generate_ble_scan_response
  try dsimp only
  repeat' split
  all_goals try dsimp only
  all_goals repeat apply append_ne_empty
  all_goals decide

theorem get_debug_status_ne (b : BLEState) : b.get_debug_status ≠ "" := by
  unfold BLEState.get_debug_status
  repeat apply append_ne_empty
  decide

theorem generate_ble_debug_response_ne (sys : Sys) :
    (generate_ble_debug_response sys).response ≠ "" := by
  unfold generate_ble_debug_response
  cases h : sys.ble with
  | none =>
    show ("BLE manager not available." : String) ≠ ""
    decide
  | some b => exact get_debug_status_ne b

theorem generate_relay_on_response_ne (sys : Sys) (args : List String) :
    (generate_relay_on_response sys args).response ≠ "" := by
  unfold generate_relay_on_response
  try dsimp only
  repeat' split
  all_goals try dsimp only
  all_goals decide

theorem generate_relay_off_response_ne (sys : Sys) (args : List String) :
    (generate_relay_off_response sys args).response ≠ "" := by
  unfold generate_relay_off_response
  try dsimp only
  repeat' split
  all_goals try dsimp only
  all_goals decide

theorem generate_relay_toggle_response_ne (sys : Sys) (args : List String) :
    (generate_relay_toggle_response sys args).response ≠ "" := by
  unfold generate_relay_toggle_response
  try dsimp only
  repeat' split
  all_goals try dsimp only
  all_goals decide

theorem get_status_ne (r : RelayManager) : r.get_status ≠ "" := by
  unfold RelayManager.get_status
  split
  · decide
  · repeat apply append_ne_empty
    decide

theorem relay_debug_status_ne (r : RelayManager) : r.get_debug_status ≠ "" := by
  unfold RelayManager.get_debug_status
  repeat apply append_ne_empty
  decide

theorem generate_relay_status_response_ne (sys : Sys) :
    (generate_relay_status_response sys).response ≠ "" := by
  unfold generate_relay_status_response
  cases h : sys.relay with
  | none =>
    show ("Relay manager not available." : String) ≠ ""
    decide
  | some b => exact get_status_ne b

theorem generate_relay_debug_response_ne (sys : Sys) :
    (generate_relay_debug_response sys).response ≠ "" := by
  unfold generate_relay_debug_response
  cases h : sys.relay with
  | none =>
    show ("Relay manager not available." : String) ≠ ""
    decide
  | some b => exact relay_debug_status_ne b

theorem dispatchResponse_ne (sys : Sys) (tokens : List String) :
    (dispatchResponse sys tokens).response ≠ "" := by
  cases tokens with
  | nil =>
    simp only [dispatchResponse]
    decide
  | cons t0 rest =>
    simp only [dispatchResponse]
    cases hk : lookupCmd (lowerStr t0) with
    | none =>
      try simp only [hk]
      try dsimp only
      repeat apply append_ne_empty
      decide
    | some k =>
      try simp only [hk]
      cases k
      case help => exact generate_help_response_ne sys
      case scan => exact generate_scan_response_ne sys
      case list => exact generate_list_response_ne sys
      case connect => exact generate_connect_response_ne sys rest
      case status => exact generate_status_response_ne sys
      case disconnect => exact generate_disconnect_response_ne sys
      case bleStart => exact generate_ble_start_response_ne sys
      case bleStop => exact generate_ble_stop_response_ne sys
      case bleStatus => exact generate_ble_status_response_ne sys
      case bleName => exact generate_ble_name_response_ne sys rest
      case bleScan => exact generate_ble_scan_response_ne sys rest
      case bleDebug => exact generate_ble_debug_response_ne sys
      case relayOn => exact generate_relay_on_response_ne sys rest
      case relayOff => exact generate_relay_off_response_ne sys rest
      case relayToggle => exact generate_relay_toggle_response_ne sys rest
      case relayStatus => exact generate_relay_status_response_ne sys
      case relayDebug => exact generate_relay_debug_response_ne sys

theorem process_command_with_response_ne (sys : Sys) (command : String) :
    (process_command_with_response sys command).response ≠ "" := by
  unfold process_command_with_response
  try dsimp only
  repeat' split
  all_goals try dsimp only
  · decide
  · decide
  · exact dispatchResponse_ne sys _


theorem ble_process_received_data_sends (sys : Sys) (data : String) :
    (ble_process_received_data sys data).2 = true := by
  unfold ble_process_received_data
  simp [process_command_with_response_ne sys data]

theorem all_space_clean (s : String) (h : ∀ c ∈ s.data, isSpaceChar c = true) :
    cleanCommand s = "" := by
  unfold cleanCommand dropTrailingSpace
  have h1 : ∀ c ∈ s.data.reverse, isSpaceChar c = true :=
    fun c hc => h c (List.mem_reverse.mp hc)
  have h2 : s.data.reverse.dropWhile isSpaceChar = [] :=
    List.dropWhile_eq_nil_iff.mpr h1
  rw [h2]
  rfl

theorem all_space_parse (s : String) (h : ∀ c ∈ s.data, isSpaceChar c = true) :
    parse_command s = [] := by
  unfold parse_command
  rw [tokenizeAux_spaces s.data h []]
  rfl

/-- C6: for every input consisting only of whitespace characters (the
empty string included), the response track returns exactly the
"Enter a command." message with no effects and unchanged state, and the
console track dispatches nothing: no handler runs, nothing is printed. -/
theorem whitespace_only_input (sys : Sys) (s : String)
    (h : ∀ c ∈ s.data, isSpaceChar c = true) :
    process_command_with_response sys s =
      ⟨"Enter a command. Type 'help' for available commands.", sys, []⟩ ∧
    process_command sys s = ⟨[], sys, []⟩ := by
  constructor
  · unfold process_command_with_response
    by_cases hs : s = ""
    · simp [hs]
    · simp [hs, all_space_clean s h]
  · unfold process_command
    by_cases hs : s = ""
    · simp [hs]
    · simp [hs, all_space_parse s h]

theorem parse_command_empty_str : parse_command "" = [] := rfl

/-- C7: for every input whose first token, folded to lowercase, is not a
keyword or alias of the command table, the response track returns exactly
the unknown-command message quoting the original-case token, and the
console track prints "Unknown command: <token>" and the help hint, again
with the original-case token. -/
theorem unknown_command_messages (sys : Sys) (s t0 : String) (rest : List String)
    (hp : parse_command s = t0 :: rest)
    (hu : lookupCmd (lowerStr t0) = none) :
    (process_command_with_response sys s).response =
      "Unknown command: '" ++ t0 ++ "'. Type 'help' for available commands." ∧
    (process_command sys s).prints =
      ["Unknown command: " ++ t0 ++ "\n", "Type 'help' for available commands.\n"] := by
  have hs : s ≠ "" := by
    intro he
    rw [he, parse_command_empty_str] at hp
    exact absurd hp (by simp)
  have hc : cleanCommand s ≠ "" := by
    intro he
    have hpc := parse_command_clean s
    rw [he, parse_command_empty_str, hp] at hpc
    exact absurd hpc (by simp)
  constructor
  · unfold process_command_with_response
    simp only [hs, if_false]
    rw [if_neg hc]
    rw [parse_command_clean, hp]
    simp [dispatchResponse, hu]
  · unfold process_command
    simp only [hs, if_false]
    rw [hp]
    simp [dispatchConsole, hu, handle_unknown_command]

/-- C8: keyword matching is case-insensitive on the keyword only and an
alias routes to the same handler: whenever two first tokens fold to
entries mapping to the same command (case variants of one keyword, or a
keyword and its alias), dispatching them with the same argument tokens
against the same collaborator state produces byte-identical
response-track results; the argument tokens are passed through unfolded. -/
theorem keyword_case_and_alias (sys : Sys) (a b : String) (rest : List String) (k : Cmd)
    (ha : lookupCmd (lowerStr a) = some k) (hb : lookupCmd (lowerStr b) = some k) :
    dispatchResponse sys (a :: rest) = dispatchResponse sys (b :: rest) := by
  simp only [dispatchResponse, ha, hb]
  cases k <;> rfl

/-- C1: when the relay collaborator is absent, every relay-group command
(relay_on, relay_off, relay_toggle, relay_status, relay_debug), with any
arguments, short-circuits on both tracks to the fixed "Relay manager not
available." message, performs no hardware effect (in particular no GPIO
write) and leaves the collaborator state unchanged.  The relay handlers
are modelled from the spec (see above): their definitions are not in the
src/ snapshot. -/
theorem relay_absent_fixed_message (sys : Sys) (kw : String) (args : List String)
    (hr : sys.relay = none)
    (hk : kw ∈ ["relay_on", "relay_off", "relay_toggle", "relay_status", "relay_debug"]) :
    dispatchResponse sys (kw :: args) = ⟨"Relay manager not available.", sys, []⟩ ∧
    dispatchConsole sys (kw :: args) = ⟨["Relay manager not available.\n"], sys, []⟩ := by
  simp only [List.mem_cons, List.not_mem_nil, or_false] at hk
  rcases hk with rfl | rfl | rfl | rfl | rfl
  · constructor
    · show generate_relay_on_response sys args = _
      simp [generate_relay_on_response, hr]
    · show handle_relay_on sys args = _
      simp [handle_relay_on, hr]
  · constructor
    · show generate_relay_off_response sys args = _
      simp [generate_relay_off_response, hr]
    · show handle_relay_off sys args = _
      simp [handle_relay_off, hr]
  · constructor
    · show generate_relay_toggle_response sys args = _
      simp [generate_relay_toggle_response, hr]
    · show handle_relay_toggle sys args = _
      simp [handle_relay_toggle, hr]
  · constructor
    · show generate_relay_status_response sys = _
      simp [generate_relay_status_response, hr]
    · show handle_relay_status sys = _
      simp [handle_relay_status, hr]
  · constructor
    · show generate_relay_debug_response sys = _
      simp [generate_relay_debug_response, hr]
    · show handle_relay_debug sys = _
      simp [handle_relay_debug, hr]

/-- C5: for an initialized relay manager, turn_on(ALL_RELAYS) leaves both
relays reporting ON through get_relay_state; and a set_relay_state call on
a single relay increments that relay switch count by exactly 1 when the
prior state differed from the requested one and leaves it unchanged when
the requested state equals the prior state. -/
theorem relay_all_on_and_switch_counts (m : RelayManager) (h : m.initialized = true) :
    (get_relay_state (turn_on m RelayId.ALL_RELAYS).2.1 RelayId.RELAY_1 = RelayState.ON ∧
     get_relay_state (turn_on m RelayId.ALL_RELAYS).2.1 RelayId.RELAY_2 = RelayState.ON) ∧
    (∀ state : RelayState,
      (set_relay_state m RelayId.RELAY_1 state).2.1.relay_1_switch_count =
        m.relay_1_switch_count + (if m.relay_1_state ≠ state then 1 else 0) ∧
      (set_relay_state m RelayId.RELAY_2 state).2.1.relay_2_switch_count =
        m.relay_2_switch_count + (if m.relay_2_state ≠ state then 1 else 0)) := by
  constructor
  · unfold turn_on
    constructor <;>
      simp [set_relay_state, RelayManager.set_gpio_state, get_relay_state, h]
  · intro state
    constructor <;>
      · simp [set_relay_state, RelayManager.set_gpio_state, h]
        split <;> simp

/-- C10: get_scan_result is total and never reads out of bounds: a
negative index or an index at or beyond the number of stored results
yields the empty string, and an in-range index yields the formatted entry
for that result. -/
theorem get_scan_result_total (results : List ScanResult) (index : Int) :
    get_scan_result results index =
      if h : 0 ≤ index ∧ index.toNat < results.length then
        formatScanResult index (results.get ⟨index.toNat, h.2⟩)
      else "" := by
  unfold get_scan_result
  split
  case isTrue hlt =>
    simp only [Bool.or_eq_true, decide_eq_true_eq] at hlt
    rw [dif_neg]
    rintro ⟨h0, hl⟩
    omega
  case isFalse hge =>
    simp only [Bool.or_eq_true, decide_eq_true_eq, not_or, not_lt, not_le] at hge
    have h0 : 0 ≤ index := hge.1
    have hl : index.toNat < results.length := by omega
    rw [dif_pos ⟨h0, hl⟩]
    congr 1
    rw [List.getD_eq_getElem, List.get_eq_getElem]

theorem start_scan_effects (b : BLEState) (d : Int) :
    (b.start_scan d).2.2 = [Effect.bleScanStart d] := by
  unfold BLEState.start_scan
  repeat' split
  all_goals rfl

theorem bleScanDuration_nonnumeric (arg : String) (rest : List String)
    (hd : arg.data.all isDigitChar = false) :
    bleScanDuration (arg :: rest) = 5 := by
  unfold bleScanDuration
  simp [hd]

theorem gen_ble_scan_effects (sys : Sys) (b : BLEState) (hbb : sys.ble = some b)
    (args : List String) :
    (generate_ble_scan_response sys args).effects =
      [Effect.bleScanStart (bleScanDuration args)] := by
  unfold generate_ble_scan_response
  simp only [hbb]
  rcases hss : b.start_scan (bleScanDuration args) with ⟨ok, b1, e⟩
  have he : e = [Effect.bleScanStart (bleScanDuration args)] := by
    have h2 := start_scan_effects b (bleScanDuration args)
    rw [hss] at h2
    exact h2
  simp only [hss]
  cases ok <;> simp [he]

/-- C4 (amended): on the response track, a non-numeric duration argument
to ble_scan is silently replaced by the default 5 passed to start_scan,
with no "invalid" message; a non-numeric index argument to connect is
rejected with the fixed message "Invalid network index. Please provide a
valid number.", with no fallback value, no effect and no state change. -/
theorem nonnumeric_argument_policy (sys : Sys) (b : BLEState) (arg : String)
    (rest : List String) (hbb : sys.ble = some b)
    (hd : arg.data.all isDigitChar = false) :
    (generate_ble_scan_response sys (arg :: rest)).effects = [Effect.bleScanStart 5] ∧
    generate_connect_response sys (arg :: rest) =
      ⟨"Invalid network index. Please provide a valid number.", sys, []⟩ := by
  constructor
  · rw [gen_ble_scan_effects sys b hbb, bleScanDuration_nonnumeric arg rest hd]
  · unfold generate_connect_response
    simp [hd]

theorem nonnumeric_argument_policy_witness :
    (generate_ble_scan_response sysB ["abc"]).effects = [Effect.bleScanStart 5] ∧
    generate_connect_response sysB ["abc"] =
      ⟨"Invalid network index. Please provide a valid number.", sysB, []⟩ :=
  nonnumeric_argument_policy sysB ble0 "abc" [] rfl (by decide)

/-- C4 counterexample: for the non-numeric duration argument in
`ble_scan abc`, the response-track handler does not produce any response
containing "invalid" (or "Invalid"): it silently uses the default and the
whole response is the scan-start/scan-failure text.  (The console track,
by contrast, prints an invalid-format notice.) -/
theorem ble_scan_nonnumeric_silent :
    (generate_ble_scan_response sysB ["abc"]).response =
      "Starting BLE scan for 5 seconds...\nFailed to start BLE scan." ∧
    isInfixChars "invalid".data (generate_ble_scan_response sysB ["abc"]).response.data
      = false ∧
    isInfixChars "Invalid".data (generate_ble_scan_response sysB ["abc"]).response.data
      = false := by
  decide

set_option maxRecDepth 8192 in
/-- C3 (code bug at the failing input): `ble_scan 4294967306` carries a
duration far outside 1-60, so by the claim the default 5 must be passed
to start_scan; the 32-bit accumulator of the duration parser wraps
4294967306 to 10, which passes the 1-60 range check, and start_scan is
called with 10 instead of 5. -/
theorem ble_scan_duration_overflow_eval :
    (60 : Int) < 4294967306 ∧
    (generate_ble_scan_response sysB ["4294967306"]).effects =
      [Effect.bleScanStart 10] ∧
    (10 : Int) ≠ 5 := by
  decide

set_option maxRecDepth 8192 in
/-- C2 (code bug at the failing input): with eleven scanned networks,
`connect 4294967306` must be refused as out of range (4294967306 is at
least the list length), but the 32-bit accumulator of the hand-written
index parser wraps to 10, so the code attempts a real connection to the
network at index 10 and does not return the out-of-range message. -/
theorem connect_index_overflow_eval :
    (netsOpen11.length : Int) ≤ 4294967306 ∧
    (generate_connect_response sys11 ["4294967306"]).effects =
      [Effect.wifiConnect "Net10" ""] ∧
    (generate_connect_response sys11 ["4294967306"]).response ≠
      "Network index out of range. Use 'list' to see available networks." := by
  decide

/-- C9: process_command_with_response returns a non-empty string for every
input and collaborator state, so the BLE receive path, which forwards a
notification exactly when the computed response is non-empty, invokes
send_response for every received command. -/
theorem response_never_empty_and_always_notifies (sys : Sys) (command : String) :
    (process_command_with_response sys command).response ≠ "" ∧
    (ble_process_received_data sys command).2 = true :=
  ⟨process_command_with_response_ne sys command,
   ble_process_received_data_sends sys command⟩

theorem relay_absent_fixed_message_witness :
    dispatchResponse sysNone ["relay_on", "1"] =
      ⟨"Relay manager not available.", sysNone, []⟩ ∧
    dispatchConsole sysNone ["relay_on", "1"] =
      ⟨["Relay manager not available.\n"], sysNone, []⟩ :=
  relay_absent_fixed_message sysNone "relay_on" ["1"] rfl (by decide)

theorem relay_all_on_and_switch_counts_witness :
    (get_relay_state (turn_on rm0 RelayId.ALL_RELAYS).2.1 RelayId.RELAY_1 =
       RelayState.ON ∧
     get_relay_state (turn_on rm0 RelayId.ALL_RELAYS).2.1 RelayId.RELAY_2 =
       RelayState.ON) ∧
    (set_relay_state rm0 RelayId.RELAY_1 RelayState.ON).2.1.relay_1_switch_count =
      rm0.relay_1_switch_count + (if rm0.relay_1_state ≠ RelayState.ON then 1 else 0) ∧
    (set_relay_state rm0 RelayId.RELAY_2 RelayState.OFF).2.1.relay_2_switch_count =
      rm0.relay_2_switch_count + (if rm0.relay_2_state ≠ RelayState.OFF then 1 else 0) :=
  ⟨(relay_all_on_and_switch_counts rm0 rfl).1,
   ((relay_all_on_and_switch_counts rm0 rfl).2 RelayState.ON).1,
   ((relay_all_on_and_switch_counts rm0 rfl).2 RelayState.OFF).2⟩

theorem whitespace_only_input_witness :
    process_command_with_response sysNone " \t " =
      ⟨"Enter a command. Type 'help' for available commands.", sysNone, []⟩ ∧
    process_command sysNone " \t " = ⟨[], sysNone, []⟩ :=
  whitespace_only_input sysNone " \t " (by decide)

theorem unknown_command_messages_witness :
    (process_command_with_response sysNone "FOO bar").response =
      "Unknown command: '" ++ "FOO" ++ "'. Type 'help' for available commands." ∧
    (process_command sysNone "FOO bar").prints =
      ["Unknown command: " ++ "FOO" ++ "\n", "Type 'help' for available commands.\n"] :=
  unknown_command_messages sysNone "FOO bar" "FOO" ["bar"] (by decide) (by decide)

theorem keyword_case_and_alias_witness :
    dispatchResponse sysNone ["H"] = dispatchResponse sysNone ["help"] :=
  keyword_case_and_alias sysNone "H" "help" [] Cmd.help (by decide) (by decide)

end Esp32.command_interface
